import Mathlib

/-!
Shallow embedding of the send pipeline of a multi-tenant outbound messaging
platform: the compliance engine (`src/services/compliance/index.js`), the
delivery queue (`src/services/queue/index.js`) and the provider adapter with
its webhook reconciliation (`src/services/sms/telnyx.js`).

Modelling conventions:
* Wall-clock time in the recipient's resolved timezone is a count of minutes
  since a fixed local epoch (`now : Nat`); `now % 1440` is the local HH:MM of
  the day expressed in minutes, matching the `dayjs` wall-clock arithmetic of
  the source at minute granularity.  The configured quiet-hour boundaries
  (`'21:00'`, `'08:00'`) are the corresponding minute counts; lexicographic
  comparison of fixed-width `HH:mm` strings in the source coincides with
  numeric comparison of minutes.
* `date_of_birth` is modelled by `ageYears`, the whole-year difference that
  `dayjs().diff(dob, 'year')` computes, since only that difference is used.
* The SQL `COUNT(*)` of outbound messages of this kind to this contact in the
  trailing 24 hours is modelled by the environment field
  `recentOutboundCount`.
* Database tables are lists of rows; `INSERT` appends, `UPDATE ... WHERE`
  maps a conditional row update over the list, and
  `ON CONFLICT (phone) DO NOTHING` inserts only when the key is absent.
-/

namespace TextPlatform

/-- Channel of a message, the `messageType` argument of the compliance engine
(`'sms'` or `'email'` in the source). -/
inductive MessageType where
  | sms
  | email
deriving DecidableEq, Repr

/-- The compliance-relevant configuration (`config.compliance`): quiet-hour
window boundaries in minutes since local midnight and the per-recipient daily
message cap. -/
structure QuietConfig where
  quietStart : Nat
  quietEnd : Nat
  maxPerDay : Nat
deriving Repr

/-- The contact row as seen by `checkMessage`: the `contacts` columns joined
with the primary location's `state` and `timezone`
(`SELECT c.*, l.state, l.timezone as location_timezone`). -/
structure Contact where
  id : String := ""
  tenant_id : String := ""
  phone : Option String := none
  sms_consent : Bool := false
  sms_consent_at : Option Nat := none
  sms_opted_out : Bool := false
  sms_opted_out_at : Option Nat := none
  email_consent : Bool := false
  email_consent_at : Option Nat := none
  email_opted_out : Bool := false
  email_opted_out_at : Option Nat := none
  age_verified : Bool := false
  ageYears : Option Nat := none
  tags : List String := []
  primary_location_id : Option String := none
  timezone : Option String := none
  location_timezone : Option String := none
  state : Option String := none
deriving Repr, DecidableEq

/-- External state read by the async checks of `checkMessage`: the
`global_opt_outs` phone list and the trailing-24h outbound message count of
this (contact, kind). -/
structure Env where
  globalOptOuts : List String := []
  recentOutboundCount : Nat := 0
deriving Repr

/-- Result of a single compliance check: `{ approved, reasons, retryAfter? }`. -/
structure CheckResult where
  approved : Bool
  reasons : List String
  retryAfter : Option Nat := none
deriving Repr, DecidableEq

/-- The per-check booleans reported by `checkMessage` in its `checks` object. -/
structure Checks where
  consent : Bool
  optOut : Bool
  ageVerification : Bool
  quietHours : Bool
  rateLimit : Bool
  stateRules : Bool
deriving Repr, DecidableEq

/-- The aggregate result of `checkMessage`:
`{ approved, reasons, contact, checks }` (the contact echo is implicit here,
the caller already holds it). -/
structure ComplianceResult where
  approved : Bool
  reasons : List String
  checks : Checks
deriving Repr, DecidableEq

/-- Phone normalization (`normalizePhone`): strip every non-digit character,
prepend the US country code `1` when exactly 10 digits remain, and prefix
`+`. -/
def normalizePhone (phone : String) : String :=
  let digits := phone.toList.filter Char.isDigit
  let digits := if digits.length = 10 then '1' :: digits else digits
  String.mk ('+' :: digits)

/-- Consent check (`checkConsent`): SMS requires the consent flag and then the
consent timestamp; email requires only the consent flag.  The source returns
at the first missing field. -/
def checkConsent (c : Contact) (mt : MessageType) : CheckResult :=
  match mt with
  | .sms =>
    if !c.sms_consent then ⟨false, ["No SMS consent on file"], none⟩
    else if c.sms_consent_at.isNone then ⟨false, ["SMS consent timestamp missing"], none⟩
    else ⟨true, [], none⟩
  | .email =>
    if !c.email_consent then ⟨false, ["No email consent on file"], none⟩
    else ⟨true, [], none⟩

/-- Opt-out flag check (`checkOptOut`). -/
def checkOptOut (c : Contact) (mt : MessageType) : CheckResult :=
  if mt = .sms ∧ c.sms_opted_out then ⟨false, ["Contact has opted out of SMS"], none⟩
  else if mt = .email ∧ c.email_opted_out then ⟨false, ["Contact has opted out of email"], none⟩
  else ⟨true, [], none⟩

/-- Age verification check (`checkAgeVerification`): the flag must be set and,
when a date of birth is on file, the computed age must be at least 21. -/
def checkAgeVerification (c : Contact) : CheckResult :=
  if !c.age_verified then ⟨false, ["Age not verified (21+ required)"], none⟩
  else
    match c.ageYears with
    | some age => if age < 21 then ⟨false, ["Contact is under 21"], none⟩ else ⟨true, [], none⟩
    | none => ⟨true, [], none⟩

/-- Global opt-out check (`checkGlobalOptOut`): the normalized phone must not
appear in `global_opt_outs`. -/
def checkGlobalOptOut (globalOptOuts : List String) (phone : String) : CheckResult :=
  if globalOptOuts.contains (normalizePhone phone) then
    ⟨false, ["Phone number on global opt-out list"], none⟩
  else ⟨true, [], none⟩

/-- Timezone resolution of `checkQuietHours`:
`contact.timezone || contact.location_timezone || 'America/Los_Angeles'`. -/
def resolveTz (c : Contact) : String :=
  c.timezone.getD (c.location_timezone.getD "America/Los_Angeles")

/-- Two-digit zero padding, as in the `HH:mm` format of the source. -/
def pad2 (n : Nat) : String :=
  if n < 10 then "0" ++ toString n else toString n

/-- Render a minute count of the day as the `HH:mm` string the source
manipulates. -/
def formatHHMM (m : Nat) : String :=
  pad2 (m / 60) ++ ":" ++ pad2 (m % 60)

/-- The quiet-hour window membership test of `checkQuietHours`: with a
wrapping window (`start > end`) the current time is inside when
`current >= start || current < end`, otherwise when
`current >= start && current < end`. -/
def inQuietHoursAt (cfg : QuietConfig) (now : Nat) : Bool :=
  let cur := now % 1440
  if cfg.quietStart > cfg.quietEnd then
    decide (cfg.quietStart ≤ cur) || decide (cur < cfg.quietEnd)
  else
    decide (cfg.quietStart ≤ cur) && decide (cur < cfg.quietEnd)

/-- Quiet-hours end computation (`getQuietHoursEnd`): today's `end` boundary
in the recipient zone, pushed to tomorrow when it has already passed. -/
def getQuietHoursEnd (cfg : QuietConfig) (now : Nat) : Nat :=
  if (now - now % 1440) + cfg.quietEnd < now then (now - now % 1440) + cfg.quietEnd + 1440
  else (now - now % 1440) + cfg.quietEnd

/-- Quiet-hours check (`checkQuietHours`): inside the window the check fails
with a reason naming the window and zone and attaches
`retryAfter = getQuietHoursEnd`. -/
def checkQuietHours (cfg : QuietConfig) (c : Contact) (now : Nat) : CheckResult :=
  let tz := resolveTz c
  if inQuietHoursAt cfg now then
    ⟨false,
     ["Quiet hours in effect (" ++ formatHHMM cfg.quietStart ++ " - " ++
        formatHHMM cfg.quietEnd ++ " " ++ tz ++ ")"],
     some (getQuietHoursEnd cfg now)⟩
  else ⟨true, [], none⟩

/-- Rate-limit check (`checkRateLimit`): fail when the trailing-24h outbound
count has reached `maxMessagesPerDayPerRecipient`. -/
def checkRateLimit (env : Env) (cfg : QuietConfig) : CheckResult :=
  if env.recentOutboundCount ≥ cfg.maxPerDay then
    ⟨false,
     ["Rate limit exceeded (" ++ toString env.recentOutboundCount ++ "/" ++
        toString cfg.maxPerDay ++ " messages in 24h)"],
     none⟩
  else ⟨true, [], none⟩

/-- State-specific rules check (`checkStateRules`): currently a no-op that
always approves. -/
def checkStateRules (_state : Option String) (_mt : MessageType) : CheckResult :=
  ⟨true, [], none⟩

/-- JavaScript truthiness of the optional phone column (`contact.phone`),
gating the global opt-out check. -/
def phoneTruthy (p : Option String) : Bool :=
  match p with
  | some s => !s.isEmpty
  | none => false

/-- The reasons a check contributes to `checkMessage`: pushed only when the
check did not approve. -/
def reasonsOf (r : CheckResult) : List String :=
  if r.approved then [] else r.reasons

/-- Full compliance evaluation (`checkMessage`) for a found contact: the seven
checks run in fixed order without short-circuiting, reasons accumulate, and
`approved` holds exactly when no reason was collected.  The global opt-out
check runs only for SMS with a truthy phone; the quiet-hours check runs only
for SMS. -/
def checkMessage (cfg : QuietConfig) (env : Env) (c : Contact) (mt : MessageType)
    (now : Nat) : ComplianceResult :=
  let consentCheck := checkConsent c mt
  let optOutCheck := checkOptOut c mt
  let ageCheck := checkAgeVerification c
  let globalReasons :=
    match mt, c.phone with
    | .sms, some p => if p.isEmpty then [] else reasonsOf (checkGlobalOptOut env.globalOptOuts p)
    | _, _ => []
  let quietReasons :=
    match mt with
    | .sms => reasonsOf (checkQuietHours cfg c now)
    | .email => []
  let rateLimitCheck := checkRateLimit env cfg
  let stateCheck := checkStateRules c.state mt
  let reasons :=
    reasonsOf consentCheck ++ reasonsOf optOutCheck ++ reasonsOf ageCheck ++
      globalReasons ++ quietReasons ++ reasonsOf rateLimitCheck ++ reasonsOf stateCheck
  { approved := reasons.isEmpty
    reasons := reasons
    checks :=
      { consent := consentCheck.approved
        optOut := optOutCheck.approved
        ageVerification := ageCheck.approved
        quietHours := match mt with
          | .sms => (checkQuietHours cfg c now).approved
          | .email => true
        rateLimit := rateLimitCheck.approved
        stateRules := stateCheck.approved } }

/-- Outcome of `queueSMSWithQuietHours`: either a job is enqueued with a delay
(in minutes here; milliseconds in the source) or the request is rejected with
the collected compliance reasons. -/
inductive QueueOutcome where
  | queued (delay : Nat)
  | blocked (reasons : List String)
deriving Repr, DecidableEq

/-- Enqueue-time decision (`queueSMSWithQuietHours` over `queueSMS`): run the
compliance evaluation; when approved enqueue immediately; otherwise, when the
`quietHours` entry of the `checks` object is false and a `retryAfter` was
computed by re-running `checkQuietHours`, enqueue with the delay until that
instant; otherwise reject with the reasons. -/
def queueSMSWithQuietHours (cfg : QuietConfig) (env : Env) (c : Contact)
    (now : Nat) : QueueOutcome :=
  let complianceResult := checkMessage cfg env c .sms now
  if !complianceResult.approved then
    if !complianceResult.checks.quietHours then
      match (checkQuietHours cfg c now).retryAfter with
      | some retryAfter => .queued (retryAfter - now)
      | none => .blocked complianceResult.reasons
    else .blocked complianceResult.reasons
  else .queued 0

/-- A row of the `messages` table, restricted to the columns the send and
reconciliation paths touch. -/
structure MessageRow where
  id : Nat := 0
  tenant_id : String := ""
  campaign_id : Option String := none
  contact_id : Option String := none
  direction : String := "outbound"
  to_address : Option String := none
  from_address : Option String := none
  content : String := ""
  status : String := "queued"
  provider_status : Option String := none
  provider_error : Option String := none
  provider_message_id : Option String := none
  segments : Nat := 1
  sent_at : Option Nat := none
  delivered_at : Option Nat := none
  status_updated_at : Option Nat := none
  consent_verified_at : Option Nat := none
  quiet_hours_checked_at : Option Nat := none
deriving Repr, DecidableEq

/-- The carrier response to a create-message call: `{ data: { id, parts } }`. -/
structure ProviderResponse where
  id : String
  parts : Option Nat
deriving Repr, DecidableEq

/-- JavaScript `response.data.parts || 1`: an absent or zero part count reads
as one segment. -/
def partsOrOne (parts : Option Nat) : Nat :=
  match parts with
  | some n => if n = 0 then 1 else n
  | none => 1

/-- Result of `TelnyxService.sendMessage`: a compliance block, a successful
dispatch, or a provider failure. -/
inductive SendResult where
  | blockedR (reasons : List String)
  | sentR (messageId : Nat) (telnyxId : String) (segments : Nat)
  | failedR (messageId : Nat) (error : String)
deriving Repr, DecidableEq

/-- Provider dispatch (`TelnyxService.sendMessage`): re-run the full
compliance evaluation; any failure returns a blocked result without touching
the store.  Otherwise insert a `queued` outbound row, call the carrier
(modelled by the `provider` argument; `fromNumber` models the location phone
lookup of step 3), and update the row to `sent` with provider id and segments
on success or to `failed` with the error text on exception. -/
def sendMessage (cfg : QuietConfig) (env : Env) (c : Contact) (now : Nat)
    (provider : Except String ProviderResponse) (fromNumber : Option String)
    (tenantId : String) (campaignId : Option String)
    (store : List MessageRow) (newId : Nat) : SendResult × List MessageRow :=
  let complianceResult := checkMessage cfg env c .sms now
  if !complianceResult.approved then
    (.blockedR complianceResult.reasons, store)
  else
    let row : MessageRow :=
      { id := newId, tenant_id := tenantId, campaign_id := campaignId
        contact_id := some c.id, direction := "outbound", to_address := c.phone
        from_address := fromNumber, status := "queued"
        consent_verified_at := some now, quiet_hours_checked_at := some now }
    let store1 := store ++ [row]
    match provider with
    | .ok resp =>
      (.sentR newId resp.id (partsOrOne resp.parts),
       store1.map fun m =>
         if m.id = newId then
           { m with provider_message_id := some resp.id, status := "sent"
                    sent_at := some now, segments := partsOrOne resp.parts }
         else m)
    | .error e =>
      (.failedR newId e,
       store1.map fun m =>
         if m.id = newId then { m with status := "failed", provider_error := some e }
         else m)

/-- Outcome of one SMS worker invocation: a returned result finalizes the job
as completed; a thrown error makes the queue retry it in place. -/
inductive WorkerOutcome where
  | completed (result : SendResult)
  | thrown (error : String)
deriving Repr, DecidableEq

/-- The SMS worker body (`startSMSWorker`): call `sendMessage`; a blocked
result is returned as-is (completed, never retried); any other failure throws
so the queue retries; success completes. -/
def smsWorkerStep (cfg : QuietConfig) (env : Env) (c : Contact) (now : Nat)
    (provider : Except String ProviderResponse) (fromNumber : Option String)
    (tenantId : String) (campaignId : Option String)
    (store : List MessageRow) (newId : Nat) : WorkerOutcome × List MessageRow :=
  let r := sendMessage cfg env c now provider fromNumber tenantId campaignId store newId
  match r.1 with
  | .blockedR reasons => (.completed (.blockedR reasons), r.2)
  | .failedR _ e => (.thrown e, r.2)
  | ok => (.completed ok, r.2)

/-- The Telnyx-to-internal status translation table of
`updateMessageStatus`. -/
def statusMap : List (String × String) :=
  [("queued", "queued"), ("sending", "sending"), ("sent", "sent"),
   ("delivered", "delivered"), ("delivery_failed", "failed"),
   ("delivery_unconfirmed", "sent")]

/-- Status translation `statusMap[status] || status`: unknown provider
statuses pass through untranslated. -/
def mapStatus (status : String) : String :=
  (statusMap.lookup status).getD status

/-- The row update applied by the `UPDATE messages SET ...` of
`updateMessageStatus`: store the mapped status, raw provider status and error,
bump `status_updated_at`, and capture `delivered_at` exactly when the mapped
status is `delivered`. -/
def applyStatusUpdate (now : Nat) (status : String) (errorMessage : Option String)
    (m : MessageRow) : MessageRow :=
  let mappedStatus := mapStatus status
  { m with status := mappedStatus, provider_status := some status
           provider_error := errorMessage, status_updated_at := some now
           delivered_at := if mappedStatus = "delivered" then some now else m.delivered_at }

/-- Webhook status reconciliation (`updateMessageStatus`): update every
`messages` row whose `provider_message_id` matches (a cross-tenant lookup;
provider ids are unique in practice). -/
def updateMessageStatus (now : Nat) (telnyxMessageId : String) (status : String)
    (errorMessage : Option String) (store : List MessageRow) : List MessageRow :=
  store.map fun m =>
    if m.provider_message_id = some telnyxMessageId then
      applyStatusUpdate now status errorMessage m
    else m

/-- A row of the compliance audit table `opt_out_log`. -/
structure LogEntry where
  tenant_id : String
  contact_id : Option String
  channel : String
  address : String
  action : String
  method : String
  source_message_id : Option Nat := none
deriving Repr, DecidableEq

/-- The durable state touched by opt-out and opt-in processing: the tenant's
contacts, the audit log and the cross-tenant global opt-out phone list. -/
structure OptState where
  contacts : List Contact := []
  optOutLog : List LogEntry := []
  globalOptOuts : List String := []
deriving Repr, DecidableEq

/-- Result value of `processOptOut` / `processOptIn`. -/
inductive OptResult where
  | ok (contactId : Option String)
  | err (error : String)
deriving Repr, DecidableEq

/-- The contact lookup `SELECT id FROM contacts WHERE phone = $1` under the
tenant scope. -/
def findContactByPhone (tenantId phone : String) (contacts : List Contact) :
    Option Contact :=
  contacts.find? fun c => c.tenant_id == tenantId && c.phone == some phone

/-- The `UPDATE contacts SET <flag> = TRUE, <at> = NOW()` of `processOptOut`:
the SMS channel sets the SMS fields, any other channel the email fields. -/
def setOptedOut (channel : String) (now : Nat) (c : Contact) : Contact :=
  if channel = "sms" then { c with sms_opted_out := true, sms_opted_out_at := some now }
  else { c with email_opted_out := true, email_opted_out_at := some now }

/-- The contact update of `processOptIn`: clear the opt-out flag and record
fresh consent with its timestamp. -/
def setOptedIn (channel : String) (now : Nat) (c : Contact) : Contact :=
  if channel = "sms" then
    { c with sms_opted_out := false, sms_consent := true, sms_consent_at := some now }
  else
    { c with email_opted_out := false, email_consent := true, email_consent_at := some now }

/-- Opt-out processing (`processOptOut`): normalize the phone, flag the
matching contact of the tenant when one exists, always append an audit row
(with a null contact id when no contact matched), insert the phone into
`global_opt_outs` on-conflict-do-nothing for the SMS channel, and report
success. -/
def processOptOut (tenantId phone channel method : String)
    (sourceMessageId : Option Nat) (now : Nat) (st : OptState) :
    OptResult × OptState :=
  let normalizedPhone := normalizePhone phone
  let found := findContactByPhone tenantId normalizedPhone st.contacts
  let contactId := found.map (·.id)
  let contacts1 :=
    match found with
    | some fc =>
      st.contacts.map fun c =>
        if c.tenant_id = tenantId ∧ c.id = fc.id then setOptedOut channel now c else c
    | none => st.contacts
  let log1 := st.optOutLog ++
    [⟨tenantId, contactId, channel, normalizedPhone, "opt_out", method, sourceMessageId⟩]
  let global1 :=
    if channel = "sms" then
      if st.globalOptOuts.contains normalizedPhone then st.globalOptOuts
      else st.globalOptOuts ++ [normalizedPhone]
    else st.globalOptOuts
  (.ok contactId, ⟨contacts1, log1, global1⟩)

/-- Opt-in processing (`processOptIn`): normalize the phone; when no contact
of the tenant matches, fail with `Contact not found` without writing anything;
otherwise restore consent, append an audit row and delete the phone from
`global_opt_outs` for the SMS channel. -/
def processOptIn (tenantId phone channel method : String) (now : Nat)
    (st : OptState) : OptResult × OptState :=
  let normalizedPhone := normalizePhone phone
  match findContactByPhone tenantId normalizedPhone st.contacts with
  | none => (.err "Contact not found", st)
  | some fc =>
    let contacts1 := st.contacts.map fun c =>
      if c.tenant_id = tenantId ∧ c.id = fc.id then setOptedIn channel now c else c
    let log1 := st.optOutLog ++
      [⟨tenantId, some fc.id, channel, normalizedPhone, "opt_in", method, none⟩]
    let global1 :=
      if channel = "sms" then st.globalOptOuts.filter (fun p => p ≠ normalizedPhone)
      else st.globalOptOuts
    (.ok (some fc.id), ⟨contacts1, log1, global1⟩)

/-- A `campaigns` row restricted to the columns the campaign worker reads. -/
structure CampaignRow where
  id : String := ""
  ctype : String := "sms"
  target_locations : List String := []
  target_tags : List String := []
  sms_content : String := ""
deriving Repr, DecidableEq

/-- The recipient filter built by `startCampaignWorker`: tenant match, the
consent and opt-out filters of the channels the campaign type touches, age
verification, and the location and tag targeting filters when the respective
target sets are nonempty (`c.primary_location_id = ANY(...)`,
`c.tags && ...`). -/
def campaignRecipientPred (tenantId : String) (camp : CampaignRow) (c : Contact) :
    Bool :=
  c.tenant_id == tenantId
    && (if camp.ctype == "sms" || camp.ctype == "both" then
          c.sms_consent && !c.sms_opted_out
        else true)
    && (if camp.ctype == "email" || camp.ctype == "both" then
          c.email_consent && !c.email_opted_out
        else true)
    && c.age_verified
    && (if !camp.target_locations.isEmpty then
          match c.primary_location_id with
          | some l => camp.target_locations.contains l
          | none => false
        else true)
    && (if !camp.target_tags.isEmpty then
          c.tags.any (fun t => camp.target_tags.contains t)
        else true)

/-- Campaign expansion (`startCampaignWorker` step 2): the recipient rows
returned by the targeting query. -/
def campaignRecipients (tenantId : String) (camp : CampaignRow)
    (contacts : List Contact) : List Contact :=
  contacts.filter (campaignRecipientPred tenantId camp)

/-! Concrete fixtures used by counterexamples and witnesses. -/

/-- The default compliance configuration: quiet hours 21:00-08:00 (in minutes
1260-480), at most 3 messages per recipient per day. -/
def cfg0 : QuietConfig := ⟨1260, 480, 3⟩

/-- An environment with an empty global opt-out list and no recent outbound
messages. -/
def env0 : Env := {}

/-- An age-verified contact with no SMS consent on file (flag false, timestamp
null). -/
def contactNoConsent : Contact :=
  { age_verified := true, phone := some "+15551234567"
    timezone := some "America/Los_Angeles" }

/-- A contact passing every compliance check except, at 23:00 local time,
quiet hours. -/
def contactQuietOnly : Contact :=
  { sms_consent := true, sms_consent_at := some 0, age_verified := true
    phone := some "+15551234567", timezone := some "America/Los_Angeles" }

/-- A messages row already in the terminal `delivered` state, with provider
message id `tx1`. -/
def deliveredRow : MessageRow :=
  { id := 1, provider_message_id := some "tx1", status := "delivered"
    delivered_at := some 100 }

/-! Theorems. -/

/-- Unfolding lemma for the phone normalizer. -/
lemma normalizePhone_unfold (s : String) :
    normalizePhone s =
      String.mk ('+' ::
        (if (s.toList.filter Char.isDigit).length = 10
         then '1' :: s.toList.filter Char.isDigit
         else s.toList.filter Char.isDigit)) := rfl

/-- The character list of a packed string. -/
lemma mk_toList (l : List Char) : (String.mk l).toList = l := rfl

/-- Filtering digits is idempotent on a character list. -/
lemma filter_isDigit_self (s : String) :
    (s.toList.filter Char.isDigit).filter Char.isDigit
      = s.toList.filter Char.isDigit :=
  List.filter_eq_self.mpr (fun _c hc => (List.mem_filter.mp hc).2)

/-- C8: `normalizePhone` returns `+` followed by the input's digit characters
in order, prepending a leading `1` exactly when the input contains exactly 10
digits; being a total function of the input string, it never fails. -/
theorem normalizePhone_strips_and_prefixes (s : String) :
    normalizePhone s =
      String.mk ('+' ::
        (if (s.toList.filter Char.isDigit).length = 10
         then '1' :: s.toList.filter Char.isDigit
         else s.toList.filter Char.isDigit)) := rfl

/-- C10: the phone normalizer is idempotent: normalizing an already-normalized
number leaves it unchanged. -/
theorem normalizePhone_idempotent (s : String) :
    normalizePhone (normalizePhone s) = normalizePhone s := by
  have hplus : Char.isDigit '+' = false := rfl
  have hone : Char.isDigit '1' = true := rfl
  by_cases h10 : (s.toList.filter Char.isDigit).length = 10
  · have e2 : List.filter Char.isDigit ('+' :: '1' :: s.toList.filter Char.isDigit)
        = '1' :: s.toList.filter Char.isDigit := by
      rw [List.filter_cons, List.filter_cons, hplus, hone, filter_isDigit_self]
      simp
    rw [normalizePhone_unfold s, if_pos h10, normalizePhone_unfold, mk_toList, e2,
      if_neg (by rw [List.length_cons, h10]; omega)]
  · have e2 : List.filter Char.isDigit ('+' :: s.toList.filter Char.isDigit)
        = s.toList.filter Char.isDigit := by
      rw [List.filter_cons, hplus, filter_isDigit_self]
      simp
    rw [normalizePhone_unfold s, if_neg h10, normalizePhone_unfold, mk_toList, e2,
      if_neg h10]

/-- C4 (counterexample): for a contact with the consent flag false and the
consent timestamp null, the consent check contributes the single reason
`No SMS consent on file`; the timestamp reason never reaches the caller, so
the claimed pair of separate reasons is absent. -/
theorem checkConsent_single_reason_counterexample :
    contactNoConsent.sms_consent = false
    ∧ contactNoConsent.sms_consent_at = none
    ∧ (checkConsent contactNoConsent .sms).reasons = ["No SMS consent on file"]
    ∧ ¬ ("SMS consent timestamp missing" ∈
          (checkMessage cfg0 env0 contactNoConsent .sms 1380).reasons) := by
  refine ⟨rfl, rfl, rfl, ?_⟩
  decide

/-- C4 (amended): the consent check returns at the first missing field: with
the SMS consent flag false it fails with exactly the one reason
`No SMS consent on file`, whatever the timestamp; the timestamp reason arises
only when the flag is set and the timestamp missing. -/
theorem checkConsent_flag_missing_single_reason (c : Contact)
    (h : c.sms_consent = false) :
    checkConsent c .sms = ⟨false, ["No SMS consent on file"], none⟩ := by
  simp [checkConsent, h]

/-- C4 witness: the amended consent behavior at the concrete no-consent
contact. -/
theorem checkConsent_flag_missing_witness :
    checkConsent contactNoConsent .sms = ⟨false, ["No SMS consent on file"], none⟩ :=
  checkConsent_flag_missing_single_reason contactNoConsent rfl

/-- C3: evaluating the status reconciliation at the failing input: a
`delivered` (terminal) row hit by a later webhook with provider status `sent`
is regressed to `sent`, because the `UPDATE` is unconditional. -/
theorem sent_webhook_regresses_delivered_row :
    deliveredRow.status = "delivered"
    ∧ (updateMessageStatus 200 "tx1" "sent" none [deliveredRow]).map MessageRow.status
        = ["sent"] := by
  exact ⟨rfl, rfl⟩

/-- A list is non-empty in the boolean sense exactly when it is not `[]`. -/
lemma isEmpty_false_iff {α : Type} (l : List α) : l.isEmpty = false ↔ l ≠ [] := by
  cases l <;> simp [List.isEmpty]

/-- A failing quiet-hours check means the window membership test held. -/
lemma checkQuietHours_approved_false_iff (cfg : QuietConfig) (c : Contact) (now : Nat) :
    (checkQuietHours cfg c now).approved = false ↔ inQuietHoursAt cfg now = true := by
  unfold checkQuietHours
  cases h : inQuietHoursAt cfg now <;> simp [h]

/-- Inside the quiet window the current minute differs from the window end. -/
lemma inQuietHours_ne_end (cfg : QuietConfig) (now : Nat)
    (h : inQuietHoursAt cfg now = true) : now % 1440 ≠ cfg.quietEnd := by
  unfold inQuietHoursAt at h
  split at h
  · rcases Bool.or_eq_true_iff.mp h with h1 | h1 <;>
      simp only [decide_eq_true_eq] at h1 <;> omega
  · rcases Bool.and_eq_true_iff.mp h with ⟨h1, h2⟩
    simp only [decide_eq_true_eq] at h1 h2
    omega

/-- C5: the quiet-hours judgement follows the wrap rule of the spec
(`current ≥ start ∨ current < end` for a wrapping window, `start ≤ current <
end` otherwise), and whenever the check fails the attached `retryAfter` is the
soonest instant strictly after `now` whose local wall clock is the configured
window end. -/
theorem quietHours_wrap_rule_and_next_end (cfg : QuietConfig) (c : Contact)
    (now : Nat) (hE : cfg.quietEnd < 1440) :
    ((checkQuietHours cfg c now).approved = false ↔
      (if cfg.quietStart > cfg.quietEnd then
         cfg.quietStart ≤ now % 1440 ∨ now % 1440 < cfg.quietEnd
       else cfg.quietStart ≤ now % 1440 ∧ now % 1440 < cfg.quietEnd))
    ∧ ((checkQuietHours cfg c now).approved = false →
        (checkQuietHours cfg c now).retryAfter = some (getQuietHoursEnd cfg now)
        ∧ now < getQuietHoursEnd cfg now
        ∧ getQuietHoursEnd cfg now % 1440 = cfg.quietEnd
        ∧ ∀ u, now < u → u % 1440 = cfg.quietEnd → getQuietHoursEnd cfg now ≤ u) := by
  constructor
  · rw [checkQuietHours_approved_false_iff]
    unfold inQuietHoursAt
    split
    · rw [Bool.or_eq_true_iff]
      simp only [decide_eq_true_eq]
    · rw [Bool.and_eq_true_iff]
      simp only [decide_eq_true_eq]
  · intro happ
    have hin : inQuietHoursAt cfg now = true :=
      (checkQuietHours_approved_false_iff cfg c now).mp happ
    have hne : now % 1440 ≠ cfg.quietEnd := inQuietHours_ne_end cfg now hin
    refine ⟨by simp [checkQuietHours, hin], ?_, ?_, ?_⟩
    · unfold getQuietHoursEnd
      split <;> omega
    · unfold getQuietHoursEnd
      split <;> omega
    · intro u hu hmod
      unfold getQuietHoursEnd
      split <;> omega

/-- C5 witness: the quiet-hours clock at 23:00 local on day zero under the
default 21:00-08:00 window: the check fails and the retry instant is 08:00 of
the next day. -/
theorem quietHours_next_end_witness :
    (checkQuietHours cfg0 contactQuietOnly 1380).approved = false
    ∧ (checkQuietHours cfg0 contactQuietOnly 1380).retryAfter
        = some (getQuietHoursEnd cfg0 1380)
    ∧ 1380 < getQuietHoursEnd cfg0 1380
    ∧ getQuietHoursEnd cfg0 1380 % 1440 = cfg0.quietEnd := by
  have happ : (checkQuietHours cfg0 contactQuietOnly 1380).approved = false := by decide
  have h := (quietHours_wrap_rule_and_next_end cfg0 contactQuietOnly 1380 (by decide)).2 happ
  exact ⟨happ, h.1, h.2.1, h.2.2.1⟩

/-- The `quietHours` entry of the `checks` object of an SMS evaluation is the
recomputed quiet-hours approval. -/
lemma checkMessage_checks_quietHours (cfg : QuietConfig) (env : Env) (c : Contact)
    (now : Nat) :
    (checkMessage cfg env c .sms now).checks.quietHours
      = (checkQuietHours cfg c now).approved := rfl

/-- A failing quiet-hours check always carries a computed `retryAfter`. -/
lemma checkQuietHours_retryAfter_of_failed (cfg : QuietConfig) (c : Contact)
    (now : Nat) (h : (checkQuietHours cfg c now).approved = false) :
    (checkQuietHours cfg c now).retryAfter = some (getQuietHoursEnd cfg now) := by
  have hin := (checkQuietHours_approved_false_iff cfg c now).mp h
  simp [checkQuietHours, hin]

/-- If the quiet-hours check fails, the whole SMS evaluation is unapproved. -/
lemma checkMessage_not_approved_of_quietHours (cfg : QuietConfig) (env : Env)
    (c : Contact) (now : Nat)
    (h : (checkQuietHours cfg c now).approved = false) :
    (checkMessage cfg env c .sms now).approved = false := by
  have hin := (checkQuietHours_approved_false_iff cfg c now).mp h
  simp only [checkMessage, reasonsOf, checkQuietHours, hin]
  rw [isEmpty_false_iff]
  simp [List.append_eq_nil]

/-- C1 (counterexample): a contact failing the consent check while inside
quiet hours: the evaluation fails on consent AND on quiet hours, yet the
request is deferred (queued with the 540-minute delay until 08:00 next day),
not blocked — the aggregation never tests that quiet hours is the ONLY
failing check. -/
theorem defer_despite_other_failures_counterexample :
    (checkMessage cfg0 env0 contactNoConsent .sms 1380).checks.consent = false
    ∧ (checkMessage cfg0 env0 contactNoConsent .sms 1380).checks.quietHours = false
    ∧ (checkMessage cfg0 env0 contactNoConsent .sms 1380).approved = false
    ∧ queueSMSWithQuietHours cfg0 env0 contactNoConsent 1380
        = QueueOutcome.queued 540 := by
  exact ⟨rfl, rfl, rfl, rfl⟩

/-- C1 (amended): the enqueue-time aggregation defers whenever the
quiet-hours check fails — regardless of other failing checks — with the delay
until the computed quiet-hours end; it blocks with the collected reasons only
when some check fails while quiet hours passed; it enqueues immediately when
all checks pass. -/
theorem queueSMSWithQuietHours_decision (cfg : QuietConfig) (env : Env)
    (c : Contact) (now : Nat) :
    queueSMSWithQuietHours cfg env c now =
      (if (checkMessage cfg env c .sms now).approved then QueueOutcome.queued 0
       else if (checkMessage cfg env c .sms now).checks.quietHours then
         QueueOutcome.blocked (checkMessage cfg env c .sms now).reasons
       else QueueOutcome.queued (getQuietHoursEnd cfg now - now)) := by
  unfold queueSMSWithQuietHours
  cases happ : (checkMessage cfg env c .sms now).approved
  · cases hq : (checkMessage cfg env c .sms now).checks.quietHours
    · have hq2 : (checkQuietHours cfg c now).approved = false := by
        rw [← checkMessage_checks_quietHours cfg env c now]
        exact hq
      rw [checkQuietHours_retryAfter_of_failed cfg c now hq2]
      simp [happ, hq]
    · simp [happ, hq]
  · simp [happ]

/-- C2 (counterexample): a dispatch-time evaluation that fails only on quiet
hours (every other check passes) makes the worker finalize the job as a
blocked completion — it is not re-enqueued with a delay; the sole failure
path that retries is a thrown provider error. -/
theorem dispatch_defer_finalized_blocked_counterexample :
    (checkMessage cfg0 env0 contactQuietOnly .sms 1380).checks.consent = true
    ∧ (checkMessage cfg0 env0 contactQuietOnly .sms 1380).checks.optOut = true
    ∧ (checkMessage cfg0 env0 contactQuietOnly .sms 1380).checks.ageVerification = true
    ∧ (checkMessage cfg0 env0 contactQuietOnly .sms 1380).checks.quietHours = false
    ∧ (checkMessage cfg0 env0 contactQuietOnly .sms 1380).checks.rateLimit = true
    ∧ (checkMessage cfg0 env0 contactQuietOnly .sms 1380).checks.stateRules = true
    ∧ smsWorkerStep cfg0 env0 contactQuietOnly 1380 (.ok ⟨"tx", some 1⟩) none "t1" none [] 1
        = (.completed (.blockedR
            ["Quiet hours in effect (21:00 - 08:00 America/Los_Angeles)"]), []) := by
  exact ⟨rfl, rfl, rfl, rfl, rfl, rfl, rfl⟩

/-- C2 (amended): whenever the dispatch-time compliance evaluation fails —
including a quiet-hours-only failure — the worker returns the blocked result
and completes, leaving the store untouched: no retry, no re-enqueue, no
`messages` row. -/
theorem worker_finalizes_blocked_on_dispatch_failure (cfg : QuietConfig)
    (env : Env) (c : Contact) (now : Nat)
    (provider : Except String ProviderResponse) (fromNumber : Option String)
    (tenantId : String) (campaignId : Option String)
    (store : List MessageRow) (newId : Nat)
    (h : (checkMessage cfg env c .sms now).approved = false) :
    smsWorkerStep cfg env c now provider fromNumber tenantId campaignId store newId
      = (.completed (.blockedR (checkMessage cfg env c .sms now).reasons), store) := by
  unfold smsWorkerStep sendMessage
  simp [h]

/-- C2 witness: the blocked finalization at the concrete quiet-hours-only
dispatch state. -/
theorem worker_finalizes_blocked_witness :
    smsWorkerStep cfg0 env0 contactQuietOnly 1380 (.ok ⟨"tx", some 1⟩) none "t1" none [] 1
      = (.completed (.blockedR (checkMessage cfg0 env0 contactQuietOnly .sms 1380).reasons),
         []) :=
  worker_finalizes_blocked_on_dispatch_failure cfg0 env0 contactQuietOnly 1380
    (.ok ⟨"tx", some 1⟩) none "t1" none [] 1 rfl

/-- C6: the provider-to-internal status map sends the six known Telnyx
statuses to their images, passes any other status through unchanged, and the
row update captures `delivered_at` exactly when the mapped status is
`delivered`, while matching rows take the mapped status. -/
theorem status_mapping_and_delivered_at :
    (mapStatus "queued" = "queued" ∧ mapStatus "sending" = "sending"
      ∧ mapStatus "sent" = "sent" ∧ mapStatus "delivered" = "delivered"
      ∧ mapStatus "delivery_failed" = "failed"
      ∧ mapStatus "delivery_unconfirmed" = "sent")
    ∧ (∀ s : String,
        s ∉ ["queued", "sending", "sent", "delivered", "delivery_failed",
             "delivery_unconfirmed"] → mapStatus s = s)
    ∧ (∀ (now : Nat) (mid s : String) (err : Option String)
         (store : List MessageRow) (m : MessageRow),
        m ∈ store → m.provider_message_id = some mid →
        applyStatusUpdate now s err m ∈ updateMessageStatus now mid s err store
        ∧ (applyStatusUpdate now s err m).status = mapStatus s
        ∧ (applyStatusUpdate now s err m).delivered_at
            = (if mapStatus s = "delivered" then some now else m.delivered_at)) := by
  refine ⟨⟨rfl, rfl, rfl, rfl, rfl, rfl⟩, ?_, ?_⟩
  · intro s hs
    simp only [List.mem_cons, List.not_mem_nil, or_false, not_or] at hs
    obtain ⟨h1, h2, h3, h4, h5, h6⟩ := hs
    have b1 : (s == "queued") = false := beq_eq_false_iff_ne.mpr h1
    have b2 : (s == "sending") = false := beq_eq_false_iff_ne.mpr h2
    have b3 : (s == "sent") = false := beq_eq_false_iff_ne.mpr h3
    have b4 : (s == "delivered") = false := beq_eq_false_iff_ne.mpr h4
    have b5 : (s == "delivery_failed") = false := beq_eq_false_iff_ne.mpr h5
    have b6 : (s == "delivery_unconfirmed") = false := beq_eq_false_iff_ne.mpr h6
    simp [mapStatus, statusMap, List.lookup, b1, b2, b3, b4, b5, b6]
  · intro now mid s err store m hm hpid
    refine ⟨?_, rfl, rfl⟩
    unfold updateMessageStatus
    have hmem : (if m.provider_message_id = some mid
          then applyStatusUpdate now s err m else m)
        ∈ store.map (fun r =>
            if r.provider_message_id = some mid then applyStatusUpdate now s err r else r) :=
      List.mem_map_of_mem _ hm
    rw [if_pos hpid] at hmem
    exact hmem

/-- C6 witness: the pass-through of an unknown status and the concrete row
update of a matching delivered webhook. -/
theorem status_mapping_witness :
    mapStatus "unknown_status" = "unknown_status"
    ∧ applyStatusUpdate 5 "delivered" none deliveredRow
        ∈ updateMessageStatus 5 "tx1" "delivered" none [deliveredRow] :=
  ⟨status_mapping_and_delivered_at.2.1 "unknown_status" (by decide),
   (status_mapping_and_delivered_at.2.2 5 "tx1" "delivered" none [deliveredRow]
      deliveredRow (by simp) rfl).1⟩

/-- C9: when the normalized phone matches no contact of the tenant, SMS
opt-out processing still appends an audit row with a null contact id and puts
the phone on the global opt-out list before reporting success, while opt-in
processing fails with `Contact not found` and leaves the state untouched. -/
theorem optOut_optIn_unknown_phone_asymmetry (tenantId phone method : String)
    (src : Option Nat) (now : Nat) (st : OptState)
    (h : findContactByPhone tenantId (normalizePhone phone) st.contacts = none) :
    processOptOut tenantId phone "sms" method src now st
        = (.ok none,
           ⟨st.contacts,
            st.optOutLog ++
              [⟨tenantId, none, "sms", normalizePhone phone, "opt_out", method, src⟩],
            if st.globalOptOuts.contains (normalizePhone phone) then st.globalOptOuts
            else st.globalOptOuts ++ [normalizePhone phone]⟩)
    ∧ normalizePhone phone
        ∈ (processOptOut tenantId phone "sms" method src now st).2.globalOptOuts
    ∧ processOptIn tenantId phone "sms" method now st = (.err "Contact not found", st) := by
  refine ⟨?_, ?_, ?_⟩
  · simp [processOptOut, h]
  · simp only [processOptOut, h]
    by_cases hg : st.globalOptOuts.contains (normalizePhone phone)
    · simp only [hg, if_true]
      exact List.mem_of_elem_eq_true hg
    · simp only [hg, if_false]
      simp
  · simp [processOptIn, h]

/-- C9 witness: the asymmetry at a concrete empty state. -/
theorem optOut_optIn_asymmetry_witness :
    (processOptOut "t1" "5551234567" "sms" "manual" none 0 {}).1 = OptResult.ok none
    ∧ "+15551234567" ∈ (processOptOut "t1" "5551234567" "sms" "manual" none 0 {}).2.globalOptOuts
    ∧ processOptIn "t1" "5551234567" "sms" "manual" 0 {}
        = (.err "Contact not found", ({} : OptState)) := by
  have h := optOut_optIn_unknown_phone_asymmetry "t1" "5551234567" "manual" none 0 {} rfl
  exact ⟨by rw [h.1], h.2.1, h.2.2⟩

/-- A boolean guard of the recipient query: an `if` applied only when the
condition holds. -/
lemma guard_eq_true_iff (b x : Bool) :
    ((if b = true then x else true) = true) ↔ (b = true → x = true) := by
  cases b <;> simp

/-- C7: membership in the expanded recipient set is exactly: a contact of the
tenant, age verified, satisfying the SMS consent and opt-out filters when the
campaign kind touches SMS and the email mirror when it touches email, located
in the target locations when that set is nonempty, and carrying a target tag
when that set is nonempty. -/
theorem campaignRecipients_mem_iff (tenantId : String) (camp : CampaignRow)
    (contacts : List Contact) (c : Contact) :
    c ∈ campaignRecipients tenantId camp contacts ↔
      (c ∈ contacts ∧ c.tenant_id = tenantId ∧ c.age_verified = true
        ∧ ((camp.ctype = "sms" ∨ camp.ctype = "both") →
            c.sms_consent = true ∧ c.sms_opted_out = false)
        ∧ ((camp.ctype = "email" ∨ camp.ctype = "both") →
            c.email_consent = true ∧ c.email_opted_out = false)
        ∧ (camp.target_locations ≠ [] →
            ∃ l, c.primary_location_id = some l ∧ l ∈ camp.target_locations)
        ∧ (camp.target_tags ≠ [] → ∃ t, t ∈ c.tags ∧ t ∈ camp.target_tags)) := by
  rw [campaignRecipients, List.mem_filter]
  refine and_congr_right fun _hc => ?_
  unfold campaignRecipientPred
  simp only [Bool.and_eq_true, guard_eq_true_iff, Bool.or_eq_true, beq_iff_eq,
    Bool.not_eq_true', isEmpty_false_iff, List.any_eq_true, List.elem_iff]
  cases hopt : c.primary_location_id with
  | none => simp [hopt]; tauto
  | some l => simp [hopt]; tauto

/-- C7 witness: a concrete tag-targeted SMS campaign keeps exactly the
consenting, age-verified, tagged contact. -/
theorem campaignRecipients_witness :
    ({ id := "c1", tenant_id := "t1", sms_consent := true, age_verified := true
       tags := ["vip"] } : Contact)
      ∈ campaignRecipients "t1" { ctype := "sms", target_tags := ["vip"] }
          [{ id := "c1", tenant_id := "t1", sms_consent := true, age_verified := true
             tags := ["vip"] }] :=
  (campaignRecipients_mem_iff "t1" { ctype := "sms", target_tags := ["vip"] }
      [{ id := "c1", tenant_id := "t1", sms_consent := true, age_verified := true
         tags := ["vip"] }]
      { id := "c1", tenant_id := "t1", sms_consent := true, age_verified := true
        tags := ["vip"] }).mpr
    ⟨by simp, rfl, rfl, fun _ => ⟨rfl, rfl⟩,
     fun hyp => absurd hyp (by decide),
     fun hyp => absurd rfl hyp,
     fun _ => ⟨"vip", by simp, by simp⟩⟩

end TextPlatform
